import Mathlib

/-!
Shallow embedding of the afb-test-py harness (src/afb_test/__init__.py):
the outcome-record serialization codec, the parent-side merge, the
fork-based per-test runner, the event-wait context manager, and the TAP
result reporter.  Test-case identity is abstracted as a type parameter
(instantiated at Nat in concrete computations); rendered diagnostics are
plain strings, as in the source.
-/

namespace AfbTest

/-- An entry of a result's skipped list.  The unittest base class stores
pairs of a test case and a reason string, while unserialize_in_result
appends a bare test case, so the list is heterogeneous in the Python
source; this inductive captures both shapes. -/
inductive SkipEntry (TC : Type) where
  | pair (tc : TC) (reason : String)
  | bare (tc : TC)
  deriving Repr, DecidableEq

/-- The fields of a unittest.TestResult that the harness reads and
writes: failure, error, expected-failure lists of (test case, rendered
diagnostic) pairs, the skipped and unexpected-success lists, the
testsRun counter, and the boolean flags copied by the codec. -/
structure TestResult (TC : Type) where
  failfast : Bool
  failures : List (TC × String)
  errors : List (TC × String)
  testsRun : Nat
  skipped : List (SkipEntry TC)
  expectedFailures : List (TC × String)
  unexpectedSuccesses : List TC
  shouldStop : Bool
  buffer : Bool
  tb_locals : Bool
  _mirrorOutput : Bool
  deriving Repr, DecidableEq

/-- The JSON-dumpable dict built by serialize_test_case_result: list
fields keep only the diagnostic strings, and the skipped and
unexpectedSuccesses lists are collapsed to booleans by bool(len(..)). -/
structure SerializedResult where
  failfast : Bool
  failures : List String
  errors : List String
  testsRun : Nat
  skipped : Bool
  expectedFailures : List String
  unexpectedSuccesses : Bool
  shouldStop : Bool
  buffer : Bool
  tb_locals : Bool
  _mirrorOutput : Bool
  deriving Repr, DecidableEq

/-- serialize_test_case_result (src/afb_test/__init__.py lines 16-35):
serialize a TestResult into a JSON-dumpable dict, keeping the second
component of each (test case, diagnostic) pair. -/
def serialize_test_case_result {TC : Type} (result : TestResult TC) : SerializedResult :=
  { failfast := result.failfast
    failures := result.failures.map Prod.snd
    errors := result.errors.map Prod.snd
    testsRun := result.testsRun
    skipped := !result.skipped.isEmpty
    expectedFailures := result.expectedFailures.map Prod.snd
    unexpectedSuccesses := !result.unexpectedSuccesses.isEmpty
    shouldStop := result.shouldStop
    buffer := result.buffer
    tb_locals := result.tb_locals
    _mirrorOutput := result._mirrorOutput }

/-- unserialize_in_result (src/afb_test/__init__.py lines 38-59): the
scalar attributes failfast, testsRun, shouldStop, buffer, tb_locals and
_mirrorOutput are assigned from the received dict with setattr, while
the failures, errors, expectedFailures, unexpectedSuccesses and skipped
lists are extended, re-pairing each diagnostic with the supplied test
case (skipped and unexpectedSuccesses receive at most one entry,
reconstructed from the serialized boolean). -/
def unserialize_in_result {TC : Type} (result : TestResult TC)
    (result_json : SerializedResult) (test_case : TC) : TestResult TC :=
  { failfast := result_json.failfast
    testsRun := result_json.testsRun
    shouldStop := result_json.shouldStop
    buffer := result_json.buffer
    tb_locals := result_json.tb_locals
    _mirrorOutput := result_json._mirrorOutput
    failures := result.failures ++ result_json.failures.map (fun err => (test_case, err))
    errors := result.errors ++ result_json.errors.map (fun err => (test_case, err))
    expectedFailures :=
      result.expectedFailures ++ result_json.expectedFailures.map (fun err => (test_case, err))
    unexpectedSuccesses :=
      result.unexpectedSuccesses ++ (if result_json.unexpectedSuccesses then [test_case] else [])
    skipped :=
      result.skipped ++ (if result_json.skipped then [SkipEntry.bare test_case] else []) }

/-- A freshly constructed unittest.TestResult: empty lists, zero
counter, all flags false. -/
def emptyResult {TC : Type} : TestResult TC :=
  { failfast := false
    failures := []
    errors := []
    testsRun := 0
    skipped := []
    expectedFailures := []
    unexpectedSuccesses := []
    shouldStop := false
    buffer := false
    tb_locals := false
    _mirrorOutput := false }

/-- How one execution of a test body ends, as observed by the unittest
machinery that records it into the TestResult. -/
inductive Outcome where
  | pass
  | fail (msg : String)
  | err (msg : String)
  | skip (reason : String)
  | expectedFailure (msg : String)
  | unexpectedSuccess
  deriving Repr, DecidableEq

/-- unittest.TestCase.run as invoked inside the forked child
(src/afb_test/__init__.py line 72): startTest increments testsRun, then
the outcome of the one test body is appended to the matching list of
the (fork-inherited) result object. -/
def testCaseRun {TC : Type} (tc : TC) (o : Outcome) (r : TestResult TC) : TestResult TC :=
  let r1 := { r with testsRun := r.testsRun + 1 }
  match o with
  | Outcome.pass => r1
  | Outcome.fail m => { r1 with failures := r1.failures ++ [(tc, m)] }
  | Outcome.err m => { r1 with errors := r1.errors ++ [(tc, m)] }
  | Outcome.skip reason => { r1 with skipped := r1.skipped ++ [SkipEntry.pair tc reason] }
  | Outcome.expectedFailure m =>
      { r1 with expectedFailures := r1.expectedFailures ++ [(tc, m)] }
  | Outcome.unexpectedSuccess =>
      { r1 with unexpectedSuccesses := r1.unexpectedSuccesses ++ [tc] }

/-- The leaf record written to the pipe by the forked child
(src/afb_test/__init__.py lines 110-114): the child inherits the
parent's result object through fork, runs the one test on it, and
serializes the whole accumulated result. -/
def leafMessage {TC : Type} (tc : TC) (o : Outcome) (inherited : TestResult TC) :
    SerializedResult :=
  serialize_test_case_result (testCaseRun tc o inherited)

/-- AFBTestCase.run (src/afb_test/__init__.py lines 66-124) for one
test, seen end to end: the child (a fork, so it starts from a copy of
the parent's result) runs the test and serializes, and the parent
unserializes the received record into its own result. -/
def afbTestCaseRun {TC : Type} (tc : TC) (o : Outcome) (result : TestResult TC) :
    TestResult TC :=
  unserialize_in_result result (leafMessage tc o result) tc

/-- The sequential suite driver: each test is run by AFBTestCase.run
against the single accumulating result object, one after the other. -/
def runSuite {TC : Type} (tests : List (TC × Outcome)) (r : TestResult TC) : TestResult TC :=
  tests.foldl (fun res t => afbTestCaseRun t.1 t.2 res) r

/-- Merging a list of received records into a result, in order, each
with its originating test case, by repeated unserialize_in_result. -/
def mergeAll {TC : Type} (r : TestResult TC) (msgs : List (SerializedResult × TC)) :
    TestResult TC :=
  msgs.foldl (fun res m => unserialize_in_result res m.1 m.2) r

/-- What arrives on the parent's read end of the pipe: either bytes
that json.loads parses into the serialized dict, or malformed or
truncated bytes (including the empty read left by a child that died
before writing). -/
inductive RawMsg where
  | bytes (j : SerializedResult)
  | truncated
  deriving Repr, DecidableEq

/-- Python exceptions the embedded fragments can raise.  An
AssertionError carries its optional message (a bare assert statement
raises it with no message). -/
inductive PyExc where
  | jsonDecodeError
  | assertionError (msg : Option String)
  | bodyError
  deriving Repr, DecidableEq

/-- The parent-side receive-and-merge step (src/afb_test/__init__.py
lines 119-124): json.loads is applied to everything read from the pipe
and its result is passed to unserialize_in_result.  There is no
try/except: json.loads raises json.JSONDecodeError on malformed or
truncated input (the empty string included), and that exception
propagates out of AFBTestCase.run. -/
def parentReceive {TC : Type} (result : TestResult TC) (msg : RawMsg) (tc : TC) :
    Except PyExc (TestResult TC) :=
  match msg with
  | RawMsg.bytes j => Except.ok (unserialize_in_result result j tc)
  | RawMsg.truncated => Except.error PyExc.jsonDecodeError

/-- The polling loop of assertEventEmitted (src/afb_test/__init__.py
lines 144-147), returning the number of iterations executed: while
elapsed is at most timeout_ms and the event flag is unset, add 10 to
elapsed and sleep 10ms.  recv k is the value of the evt_received flag
at the k-th top-of-loop check (recv 0 is its value when the body
returned). -/
def pollLoop (timeout_ms : Int) (recv : Nat → Bool) (elapsed : Int) (iters : Nat) : Nat :=
  if elapsed ≤ timeout_ms ∧ recv iters = false then
    pollLoop timeout_ms recv (elapsed + 10) (iters + 1)
  else iters
termination_by (timeout_ms + 10 - elapsed).toNat
decreasing_by omega

/-- The iteration count of the polling loop started from elapsed = 0. -/
def pollIters (timeout_ms : Int) (recv : Nat → Bool) : Nat :=
  pollLoop timeout_ms recv 0 0

/-- Calls made to the libafb handle by the event-wait block. -/
inductive LibafbCall where
  | evthandler (pattern : String)
  | evtdelete (pattern : String)
  | sleep
  deriving Repr, DecidableEq

/-- The observable result of one execution of the with-block: the
sequence of libafb calls and sleeps, and the exception (if any) that
propagates out of the block. -/
structure CMOutcome where
  calls : List LibafbCall
  raised : Option PyExc
  deriving Repr, DecidableEq

/-- assertEventEmitted (src/afb_test/__init__.py lines 126-151) run to
completion around a body.  It subscribes the pattern api/event_name via
libafb.evthandler and yields to the body.  The generator produced by
the contextlib.contextmanager decorator has no try/finally around the
yield: if the body raises, the exception is thrown in at the yield and
propagates at once, so neither the polling loop nor libafb.evtdelete
nor the assert runs.  If the body returns normally, the polling loop
runs, the pattern is deleted, and the bare statement assert
evt_received raises a message-less AssertionError unless the event was
observed. -/
def assertEventEmitted (api event_name : String) (timeout_ms : Int)
    (bodyRaises : Bool) (recv : Nat → Bool) : CMOutcome :=
  let pattern := api ++ "/" ++ event_name
  if bodyRaises then
    { calls := [LibafbCall.evthandler pattern]
      raised := some PyExc.bodyError }
  else
    let n := pollIters timeout_ms recv
    { calls := LibafbCall.evthandler pattern ::
        (List.replicate n LibafbCall.sleep ++ [LibafbCall.evtdelete pattern])
      raised := if recv n then none else some (PyExc.assertionError none) }

/-- TAPTestResult (src/afb_test/__init__.py lines 154-183): the stream
is the list of strings written so far (one entry per write call), and
the base-class failures and errors lists pair a test's short
description with the rendered fault. -/
structure TAPTestResult where
  n_tests : Nat
  stream : List String
  test_n : Nat
  failures : List (String × String)
  errors : List (String × String)
  deriving Repr, DecidableEq

/-- TAPTestResult.__init__: write the plan line 1..n followed by a
newline, flush, and start the counter at 0. -/
def TAPTestResult_init (n_tests : Nat) : TAPTestResult :=
  { n_tests := n_tests
    stream := ["1.." ++ toString n_tests ++ "\n"]
    test_n := 0
    failures := []
    errors := [] }

/-- TAPTestResult.addSuccess: write the ok line for the current counter
and increment it. -/
def addSuccess (r : TAPTestResult) (test : String) : TAPTestResult :=
  { r with
    stream := r.stream ++ ["ok " ++ toString r.test_n ++ " - " ++ test ++ "\n"]
    test_n := r.test_n + 1 }

/-- TAPTestResult.addError: write the not-ok line for the current
counter, print the rendered traceback to the stream, increment the
counter, then the superclass addError appends (test, err) to the
errors list. -/
def addError (r : TAPTestResult) (test : String) (err : String) : TAPTestResult :=
  { r with
    stream := r.stream ++
      ["not ok " ++ toString r.test_n ++ " - " ++ test ++ " # Exception:\n", err]
    test_n := r.test_n + 1
    errors := r.errors ++ [(test, err)] }

/-- TAPTestResult.addFailure: delegates to addError unchanged. -/
def addFailure (r : TAPTestResult) (test : String) (err : String) : TAPTestResult :=
  addError r test err

/-- One test-completed notification delivered to the TAP result object,
carrying the test's short description and, for a fault, its rendered
traceback. -/
inductive Notification where
  | success (test : String)
  | error (test : String) (err : String)
  | failure (test : String) (err : String)
  deriving Repr, DecidableEq

/-- Dispatch one notification to the matching TAPTestResult method. -/
def applyNotification (r : TAPTestResult) : Notification → TAPTestResult
  | Notification.success t => addSuccess r t
  | Notification.error t e => addError r t e
  | Notification.failure t e => addFailure r t e

/-- A whole TAP run: construct the result for n tests, then deliver the
notifications in order. -/
def runTAP (n : Nat) (ns : List Notification) : TAPTestResult :=
  ns.foldl applyNotification (TAPTestResult_init n)

/-- The stream lines a notification produces when delivered at counter
value i: one ok or not-ok header line, plus the traceback for a fault. -/
def tapLines (i : Nat) : Notification → List String
  | Notification.success t => ["ok " ++ toString i ++ " - " ++ t ++ "\n"]
  | Notification.error t e => ["not ok " ++ toString i ++ " - " ++ t ++ " # Exception:\n", e]
  | Notification.failure t e => ["not ok " ++ toString i ++ " - " ++ t ++ " # Exception:\n", e]

/-- Re-pairing the serialized diagnostics with the supplied test case
restores the original list when every entry belonged to that test
case. -/
theorem map_snd_repair {TC : Type} (tc : TC) (l : List (TC × String))
    (h : ∀ p ∈ l, p.1 = tc) :
    (l.map Prod.snd).map (fun err => (tc, err)) = l := by
  induction l with
  | nil => rfl
  | cons a l ih =>
    simp only [List.map_cons, List.cons.injEq]
    refine ⟨?_, ih (fun p hp => h p (List.mem_cons_of_mem a hp))⟩
    have ha := h a (List.mem_cons_self a l)
    cases a
    simp_all

/-- Claim C1: decoding the encoding of an Outcome Record does not
reconstruct it in every field.  Counterexample: a record whose skipped
list holds one (test case, reason) pair serializes to the boolean true
and decodes to a single bare test-case entry, losing the reason. -/
theorem C1_counterexample :
    unserialize_in_result emptyResult
        (serialize_test_case_result
          { (emptyResult : TestResult Nat) with
              skipped := [SkipEntry.pair 0 "why"], testsRun := 1 }) 0 ≠
      { (emptyResult : TestResult Nat) with
          skipped := [SkipEntry.pair 0 "why"], testsRun := 1 } := by
  decide

/-- Claim C1, amended: decoding the encoding of a record into a fresh
result restores the scalar fields and, when every list entry belonged
to the supplied test case, the failures, errors and expectedFailures
lists exactly; the skipped and unexpectedSuccesses lists are only
restored up to non-emptiness, collapsed through the serialized boolean
to at most one bare entry for the supplied test case. -/
theorem C1_roundtrip_amended {TC : Type} (r : TestResult TC) (tc : TC)
    (hf : ∀ p ∈ r.failures, p.1 = tc)
    (he : ∀ p ∈ r.errors, p.1 = tc)
    (hx : ∀ p ∈ r.expectedFailures, p.1 = tc) :
    unserialize_in_result emptyResult (serialize_test_case_result r) tc =
      { r with
          skipped := if r.skipped.isEmpty then [] else [SkipEntry.bare tc]
          unexpectedSuccesses := if r.unexpectedSuccesses.isEmpty then [] else [tc] } := by
  unfold unserialize_in_result serialize_test_case_result emptyResult
  simp only [List.nil_append]
  congr 1
  · exact map_snd_repair tc _ hf
  · exact map_snd_repair tc _ he
  · cases h : r.skipped.isEmpty <;> simp [h]
  · exact map_snd_repair tc _ hx
  · cases h : r.unexpectedSuccesses.isEmpty <;> simp [h]

/-- Witness for C1_roundtrip_amended at a concrete record. -/
theorem C1_roundtrip_amended_witness :
    (∀ p ∈ ({ (emptyResult : TestResult Nat) with
        failures := [(0, "f")], skipped := [SkipEntry.pair 0 "s"],
        testsRun := 1 }).failures, p.1 = 0) ∧
    (∀ p ∈ ({ (emptyResult : TestResult Nat) with
        failures := [(0, "f")], skipped := [SkipEntry.pair 0 "s"],
        testsRun := 1 }).errors, p.1 = 0) ∧
    (∀ p ∈ ({ (emptyResult : TestResult Nat) with
        failures := [(0, "f")], skipped := [SkipEntry.pair 0 "s"],
        testsRun := 1 }).expectedFailures, p.1 = 0) ∧
    unserialize_in_result emptyResult
        (serialize_test_case_result
          { (emptyResult : TestResult Nat) with
              failures := [(0, "f")], skipped := [SkipEntry.pair 0 "s"],
              testsRun := 1 }) 0 =
      { { (emptyResult : TestResult Nat) with
            failures := [(0, "f")], skipped := [SkipEntry.pair 0 "s"],
            testsRun := 1 } with
          skipped := if (List.isEmpty [SkipEntry.pair (0 : Nat) "s"]) then []
            else [SkipEntry.bare 0]
          unexpectedSuccesses := if (List.isEmpty ([] : List Nat)) then [] else [0] } :=
  ⟨by decide, by decide, by decide,
    C1_roundtrip_amended _ 0 (by decide) (by decide) (by decide)⟩

/-- Claim C4: integer counters are not summed and boolean flags are not
OR-ed by the merge.  Counterexample: merging a record with testsRun 1
into an aggregate with testsRun 5 leaves testsRun at 1, not 6, and an
aggregate failfast of true is overwritten with the record's false. -/
theorem C4_counterexample :
    (unserialize_in_result
        { (emptyResult : TestResult Nat) with testsRun := 5, failfast := true }
        { serialize_test_case_result (emptyResult : TestResult Nat) with testsRun := 1 }
        0).testsRun ≠ 5 + 1 ∧
    (unserialize_in_result
        { (emptyResult : TestResult Nat) with testsRun := 5, failfast := true }
        { serialize_test_case_result (emptyResult : TestResult Nat) with testsRun := 1 }
        0).failfast ≠ (true || false) := by
  decide

/-- In every branch of the test outcome, running one test case
increments the result's testsRun by exactly one. -/
theorem testCaseRun_testsRun {TC : Type} (tc : TC) (o : Outcome) (r : TestResult TC) :
    (testCaseRun tc o r).testsRun = r.testsRun + 1 := by
  cases o <;> rfl

/-- One end-to-end AFBTestCase.run increments the parent aggregate's
testsRun by exactly one: the child serializes the fork-inherited count
plus one, and the merge assigns it. -/
theorem afbTestCaseRun_testsRun {TC : Type} (tc : TC) (o : Outcome) (r : TestResult TC) :
    (afbTestCaseRun tc o r).testsRun = r.testsRun + 1 := by
  show (testCaseRun tc o r).testsRun = r.testsRun + 1
  exact testCaseRun_testsRun tc o r

/-- Running a suite adds the number of tests to the aggregate's
testsRun. -/
theorem runSuite_testsRun {TC : Type} (tests : List (TC × Outcome)) (r : TestResult TC) :
    (runSuite tests r).testsRun = r.testsRun + tests.length := by
  induction tests generalizing r with
  | nil => rfl
  | cons t ts ih =>
    show (runSuite ts (afbTestCaseRun t.1 t.2 r)).testsRun = r.testsRun + (ts.length + 1)
    rw [ih, afbTestCaseRun_testsRun]
    omega

/-- Claim C4, amended: the merge assigns the scalar counter and boolean
flag fields from the received record (overwriting, not summing or
OR-ing) and appends the list fields; the aggregate's testsRun after a
suite of K tests still equals K, because each leaf record carries the
fork-inherited cumulative count rather than 1. -/
theorem C4_merge_amended (tests : List (Nat × Outcome)) :
    (runSuite tests emptyResult).testsRun = tests.length ∧
    ∀ (r : TestResult Nat) (j : SerializedResult) (tc : Nat),
      (unserialize_in_result r j tc).testsRun = j.testsRun ∧
      (unserialize_in_result r j tc).failfast = j.failfast ∧
      (unserialize_in_result r j tc).shouldStop = j.shouldStop ∧
      (unserialize_in_result r j tc).failures =
        r.failures ++ j.failures.map (fun e => (tc, e)) ∧
      (unserialize_in_result r j tc).errors =
        r.errors ++ j.errors.map (fun e => (tc, e)) ∧
      (unserialize_in_result r j tc).expectedFailures =
        r.expectedFailures ++ j.expectedFailures.map (fun e => (tc, e)) := by
  refine ⟨?_, fun _ _ _ => ⟨rfl, rfl, rfl, rfl, rfl, rfl⟩⟩
  rw [runSuite_testsRun]
  simp [emptyResult]

/-- Claim C8: the leaf record sent over the pipe does not always carry
testsRun 1.  Counterexample: after one test has already run and been
merged, the second test's leaf record serializes testsRun 2, because
the forked child inherits the parent's accumulated count. -/
theorem C8_counterexample :
    (leafMessage 1 Outcome.pass
        (afbTestCaseRun 0 Outcome.pass (emptyResult : TestResult Nat))).testsRun ≠ 1 := by
  decide

/-- Claim C8, amended: the leaf record transmitted for a test carries
testsRun equal to the fork-inherited aggregate count plus one -- the
cumulative number of tests run so far -- so it equals 1 only for the
first test of the suite. -/
theorem C8_leaf_testsRun (tests : List (Nat × Outcome)) (tc : Nat) (o : Outcome) :
    (leafMessage tc o (runSuite tests emptyResult)).testsRun = tests.length + 1 ∧
    ∀ (r : TestResult Nat), (leafMessage tc o r).testsRun = r.testsRun + 1 := by
  constructor
  · show (testCaseRun tc o (runSuite tests emptyResult)).testsRun = tests.length + 1
    rw [testCaseRun_testsRun, runSuite_testsRun]
    simp [emptyResult]
  · intro r
    exact testCaseRun_testsRun tc o r

/-- Claim C9: TAPTestResult.addFailure delegates to addError, so a
failure notification appends its fault to the errors list and leaves
the failures list untouched. -/
theorem C9_addFailure_delegates (r : TAPTestResult) (test err : String) :
    (addFailure r test err).failures = r.failures ∧
    (addFailure r test err).errors = r.errors ++ [(test, err)] ∧
    addFailure r test err = addError r test err :=
  ⟨rfl, rfl, rfl⟩

/-- Merging extends the accumulated failures list by the concatenation
of the records' failure strings, each re-paired with its record's
originating test case, in order. -/
theorem mergeAll_failures {TC : Type} (msgs : List (SerializedResult × TC))
    (r : TestResult TC) :
    (mergeAll r msgs).failures =
      r.failures ++ (msgs.map (fun m => m.1.failures.map (fun e => (m.2, e)))).join := by
  induction msgs generalizing r with
  | nil => simp [mergeAll]
  | cons m ms ih =>
    show (mergeAll (unserialize_in_result r m.1 m.2) ms).failures = _
    rw [ih]
    simp [unserialize_in_result]

/-- Merging extends the accumulated errors list by the concatenation of
the records' error strings, each re-paired with its record's
originating test case, in order. -/
theorem mergeAll_errors {TC : Type} (msgs : List (SerializedResult × TC))
    (r : TestResult TC) :
    (mergeAll r msgs).errors =
      r.errors ++ (msgs.map (fun m => m.1.errors.map (fun e => (m.2, e)))).join := by
  induction msgs generalizing r with
  | nil => simp [mergeAll]
  | cons m ms ih =>
    show (mergeAll (unserialize_in_result r m.1 m.2) ms).errors = _
    rw [ih]
    simp [unserialize_in_result]

/-- Claim C5: merging K records into an initially empty aggregate
yields a failures list that is the in-order concatenation of the
records' failure strings and an errors list that is the in-order
concatenation of their error strings, so the lengths are the sums of
the per-record lengths and per-test order is preserved. -/
theorem C5_merge_concat {TC : Type} (msgs : List (SerializedResult × TC)) :
    (mergeAll emptyResult msgs).failures =
      (msgs.map (fun m => m.1.failures.map (fun e => (m.2, e)))).join ∧
    (mergeAll emptyResult msgs).errors =
      (msgs.map (fun m => m.1.errors.map (fun e => (m.2, e)))).join ∧
    (mergeAll emptyResult msgs).failures.length =
      (msgs.map (fun m => m.1.failures.length)).sum ∧
    (mergeAll emptyResult msgs).errors.length =
      (msgs.map (fun m => m.1.errors.length)).sum := by
  have hf := mergeAll_failures msgs (emptyResult : TestResult TC)
  have he := mergeAll_errors msgs (emptyResult : TestResult TC)
  rw [show (emptyResult : TestResult TC).failures = [] from rfl, List.nil_append] at hf
  rw [show (emptyResult : TestResult TC).errors = [] from rfl, List.nil_append] at he
  refine ⟨hf, he, ?_, ?_⟩
  · rw [hf, List.length_join]
    simp [List.map_map, Function.comp_def, List.length_map]
  · rw [he, List.length_join]
    simp [List.map_map, Function.comp_def, List.length_map]

/-- Delivering one notification appends exactly its TAP lines for the
current counter value and increments the counter. -/
theorem applyNotification_stream (r : TAPTestResult) (nf : Notification) :
    (applyNotification r nf).stream = r.stream ++ tapLines r.test_n nf ∧
    (applyNotification r nf).test_n = r.test_n + 1 := by
  cases nf <;> exact ⟨rfl, rfl⟩

/-- Folding notifications from any starting state appends, in order,
the TAP lines of each notification indexed from the starting counter
value, and advances the counter by the number of notifications. -/
theorem foldl_applyNotification (ns : List Notification) (r : TAPTestResult) :
    (ns.foldl applyNotification r).stream =
      r.stream ++ ((ns.enumFrom r.test_n).map (fun p => tapLines p.1 p.2)).join ∧
    (ns.foldl applyNotification r).test_n = r.test_n + ns.length := by
  induction ns generalizing r with
  | nil => simp
  | cons nf ns ih =>
    have h1 := applyNotification_stream r nf
    have h2 := ih (applyNotification r nf)
    rw [List.foldl_cons]
    refine ⟨?_, ?_⟩
    · rw [h2.1, h1.1, h1.2]
      simp [List.enumFrom_cons, List.append_assoc]
    · rw [h2.2, h1.2, List.length_cons]
      omega

/-- Claim C6: a TAP run over N notifications writes exactly one plan
line 1..N on construction, followed per notification by exactly one ok
or not-ok header line (plus the fault text for errors), with the index
starting at 0 and incremented after each notification regardless of
outcome, so the indices are 0..N-1 in arrival order. -/
theorem C6_tap_stream (n : Nat) (ns : List Notification) (h : ns.length = n) :
    (runTAP n ns).stream =
      ("1.." ++ toString n ++ "\n") :: (ns.enum.map (fun p => tapLines p.1 p.2)).join ∧
    (runTAP n ns).test_n = n := by
  have h0 := foldl_applyNotification ns (TAPTestResult_init n)
  refine ⟨?_, ?_⟩
  · rw [show (runTAP n ns).stream = (ns.foldl applyNotification (TAPTestResult_init n)).stream from rfl,
      h0.1]
    rfl
  · rw [show (runTAP n ns).test_n = (ns.foldl applyNotification (TAPTestResult_init n)).test_n from rfl,
      h0.2]
    simp [TAPTestResult_init, h]

/-- Witness for C6_tap_stream on a two-test run with one success and
one failure. -/
theorem C6_tap_stream_witness :
    ([Notification.success "A", Notification.failure "B" "tb"].length = 2) ∧
    ((runTAP 2 [Notification.success "A", Notification.failure "B" "tb"]).stream =
      ("1.." ++ toString 2 ++ "\n") ::
        (([Notification.success "A", Notification.failure "B" "tb"].enum.map
          (fun p => tapLines p.1 p.2)).join) ∧
     (runTAP 2 [Notification.success "A", Notification.failure "B" "tb"]).test_n = 2) :=
  ⟨rfl, C6_tap_stream 2 [Notification.success "A", Notification.failure "B" "tb"] rfl⟩

/-- Claim C2: the scoped event-wait block does not unsubscribe on every
exit path.  When the guarded body raises, the exception is thrown into
the generator at the yield, there is no try/finally, and evtdelete is
never called: the only libafb call of the block is the initial
evthandler subscription, and the body's exception is what propagates.
On a normal return the block does call evtdelete. -/
theorem C2_body_exception_skips_evtdelete :
    (assertEventEmitted "api" "ev" 100 true (fun _ => false)).calls =
      [LibafbCall.evthandler ("api" ++ "/" ++ "ev")] ∧
    (assertEventEmitted "api" "ev" 100 true (fun _ => false)).raised =
      some PyExc.bodyError ∧
    LibafbCall.evtdelete ("api" ++ "/" ++ "ev") ∉
      (assertEventEmitted "api" "ev" 100 true (fun _ => false)).calls ∧
    LibafbCall.evtdelete ("api" ++ "/" ++ "ev") ∈
      (assertEventEmitted "api" "ev" 100 false (fun _ => true)).calls := by
  refine ⟨rfl, rfl, by decide, ?_⟩
  show LibafbCall.evtdelete ("api" ++ "/" ++ "ev") ∈
    LibafbCall.evthandler ("api" ++ "/" ++ "ev") ::
      (List.replicate (pollIters 100 (fun _ => true)) LibafbCall.sleep ++
        [LibafbCall.evtdelete ("api" ++ "/" ++ "ev")])
  exact List.mem_cons_of_mem _ (List.mem_append_right _ (List.mem_singleton.mpr rfl))

/-- Claim C3 counterexample: on a truncated transport (zero bytes read
from the pipe) the parent-side receive-and-merge step raises
json.JSONDecodeError instead of producing a synthetic Outcome Record;
no record reaches the aggregate. -/
theorem C3_counterexample :
    parentReceive (emptyResult : TestResult Nat) RawMsg.truncated 0 =
      Except.error PyExc.jsonDecodeError ∧
    (parentReceive (emptyResult : TestResult Nat) RawMsg.truncated 0).toOption = none :=
  ⟨rfl, rfl⟩

/-- Claim C3, amended: for every aggregate and test case, malformed or
truncated bytes make json.loads raise JSONDecodeError, which propagates
out of the unguarded receive-and-merge step of AFBTestCase.run; no
synthetic Outcome Record is produced and nothing is merged. -/
theorem C3_truncated_raises {TC : Type} (result : TestResult TC) (tc : TC) :
    parentReceive result RawMsg.truncated tc = Except.error PyExc.jsonDecodeError ∧
    (parentReceive result RawMsg.truncated tc).toOption = none :=
  ⟨rfl, rfl⟩

/-- Claim C7 counterexample: when the body returns normally and the
event is never observed within the timeout, the block raises the bare
AssertionError of the statement assert evt_received, whose message is
none: the failure diagnostic names neither the event pattern nor the
timeout value. -/
theorem C7_counterexample :
    (assertEventEmitted "api" "ev" 100 false (fun _ => false)).raised =
      some (PyExc.assertionError none) := by
  show (if (fun _ => false) (pollIters 100 (fun _ => false)) = true then none
    else some (PyExc.assertionError none)) = some (PyExc.assertionError none)
  simp

/-- Claim C7, amended: if the body returns normally and the event flag
is still unset after the polling loop, the block raises a bare
AssertionError carrying no message (so the guarded test is marked
failed, but the diagnostic names neither the pattern nor the timeout);
if the body itself raised, the body's exception is the one that
propagates (the assert never runs). -/
theorem C7_timeout_raises_amended (api ev : String) (t : Int) (recv : Nat → Bool)
    (h : recv (pollIters t recv) = false) :
    (assertEventEmitted api ev t false recv).raised =
      some (PyExc.assertionError none) ∧
    (assertEventEmitted api ev t true recv).raised = some PyExc.bodyError := by
  constructor
  · show (if recv (pollIters t recv) = true then none
      else some (PyExc.assertionError none)) = some (PyExc.assertionError none)
    rw [h]
    simp
  · rfl

/-- Witness for C7_timeout_raises_amended with a 25ms timeout and an
event that never fires. -/
theorem C7_timeout_raises_amended_witness :
    ((fun _ => false) (pollIters 25 (fun _ => false)) = false) ∧
    ((assertEventEmitted "a" "e" 25 false (fun _ => false)).raised =
        some (PyExc.assertionError none) ∧
      (assertEventEmitted "a" "e" 25 true (fun _ => false)).raised =
        some PyExc.bodyError) :=
  ⟨rfl, C7_timeout_raises_amended "a" "e" 25 (fun _ => false) rfl⟩

/-- The polling loop from any intermediate state runs at most enough
further iterations to push elapsed past the timeout. -/
theorem pollLoop_le (timeout_ms : Int) (recv : Nat → Bool) (elapsed : Int) (iters : Nat) :
    pollLoop timeout_ms recv elapsed iters ≤
      iters + (if elapsed ≤ timeout_ms then (timeout_ms - elapsed).toNat / 10 + 1 else 0) := by
  induction elapsed, iters using pollLoop.induct timeout_ms recv with
  | case1 e i h ih =>
    rw [pollLoop, if_pos h]
    by_cases h10 : e + 10 ≤ timeout_ms
    · simp only [if_pos h.1, if_pos h10] at *
      omega
    · simp only [if_pos h.1, if_neg h10] at *
      omega
  | case2 e i h =>
    rw [pollLoop, if_neg h]
    omega

/-- Claim C10: the polling loop terminates after at most
floor(timeout_ms / 10) + 1 iterations (each sleeping 10ms, so the total
wait is bounded by timeout_ms + 10 milliseconds), and it performs zero
iterations when the timeout is negative or the event flag was already
set when the body returned. -/
theorem C10_poll_bound (timeout_ms : Int) (recv : Nat → Bool) :
    pollIters timeout_ms recv ≤ timeout_ms.toNat / 10 + 1 ∧
    10 * (pollIters timeout_ms recv : Int) ≤ max timeout_ms 0 + 10 ∧
    (timeout_ms < 0 → pollIters timeout_ms recv = 0) ∧
    (recv 0 = true → pollIters timeout_ms recv = 0) := by
  have hb := pollLoop_le timeout_ms recv 0 0
  have hbound : pollIters timeout_ms recv ≤ timeout_ms.toNat / 10 + 1 := by
    rw [pollIters]
    by_cases h0 : (0 : Int) ≤ timeout_ms
    · rw [if_pos h0] at hb
      simp only [Int.sub_zero] at hb
      omega
    · rw [if_neg h0] at hb
      omega
  refine ⟨hbound, ?_, ?_, ?_⟩
  · have h2 : (10 : Int) * (pollIters timeout_ms recv : Int) ≤
        10 * ((timeout_ms.toNat : Int) / 10 + 1) := by
      have := hbound
      omega
    omega
  · intro hneg
    rw [pollIters, pollLoop]
    have : ¬ ((0 : Int) ≤ timeout_ms ∧ recv 0 = false) := by
      intro hc
      omega
    rw [if_neg this]
  · intro hr
    rw [pollIters, pollLoop]
    have : ¬ ((0 : Int) ≤ timeout_ms ∧ recv 0 = false) := by
      intro hc
      rw [hr] at hc
      simp at hc
    rw [if_neg this]

/-- Witness for C10_poll_bound: a negative timeout and an
already-observed event each give zero iterations, and a 25ms timeout
gives at most three iterations. -/
theorem C10_poll_bound_witness :
    pollIters (-1) (fun _ => false) = 0 ∧
    pollIters 25 (fun _ => true) = 0 ∧
    pollIters 25 (fun _ => false) ≤ (25 : Int).toNat / 10 + 1 :=
  ⟨(C10_poll_bound (-1) (fun _ => false)).2.2.1 (by norm_num),
    (C10_poll_bound 25 (fun _ => true)).2.2.2 rfl,
    (C10_poll_bound 25 (fun _ => false)).1⟩

end AfbTest
